import Mathlib

/-!
Verification of the client-side behaviour of the MindWell mental-health
web application (`src/js/main.js`), shallowly embedded in Lean 4.

DOM elements are modelled by their observable surface: a class list
(`List String`, DOMTokenList semantics) and an attribute association list.
Application state (`AppState.navigationActive`, the cached nav toggle and
nav menu) becomes a `NavState` record; the document body's stack of
appended emergency modals becomes a `List EmergencyModal`.  Handlers are
translated to pure state-to-state functions; the one handler that can
throw (`handleNavigation`, on a link with no `href` attribute) returns
`Except String _`.
-/

namespace MindWell

/-- DOMTokenList membership (`classList.contains`). -/
def classListContains (cs : List String) (c : String) : Bool :=
  cs.contains c

/-- DOMTokenList `add`: append the token unless already present. -/
def classListAdd (cs : List String) (c : String) : List String :=
  if cs.contains c then cs else cs ++ [c]

/-- DOMTokenList `remove`: delete every occurrence of the token. -/
def classListRemove (cs : List String) (c : String) : List String :=
  cs.filter (fun x => x ≠ c)

/-- DOMTokenList `toggle`: remove the token when present, add it otherwise. -/
def classListToggle (cs : List String) (c : String) : List String :=
  if cs.contains c then classListRemove cs c else classListAdd cs c

/-- `getAttribute`: `none` models the JavaScript `null` return for a
missing attribute. -/
def getAttribute (attrs : List (String × String)) (k : String) : Option String :=
  (attrs.find? (fun p => p.1 = k)).map (fun p => p.2)

/-- `setAttribute`: overwrite the first binding of the key in place,
or append a new binding when the key is absent. -/
def setAttribute (attrs : List (String × String)) (k v : String) : List (String × String) :=
  match attrs with
  | [] => [(k, v)]
  | p :: rest => if p.1 = k then (k, v) :: rest else p :: setAttribute rest k v

/-- JavaScript `Boolean.prototype.toString`. -/
def boolToString (b : Bool) : String :=
  if b then "true" else "false"

/-- A DOM element, reduced to the observables the handlers touch:
its class list and its attributes. -/
structure Element where
  classes : List String
  attrs : List (String × String)
deriving Repr, DecidableEq

/-- The navigation-relevant slice of `AppState` plus the cached
`DOM.navToggle` and `DOM.navMenu` references (either may be `null`). -/
structure NavState where
  navigationActive : Bool
  navToggle : Option Element
  navMenu : Option Element
deriving Repr, DecidableEq

/-- `toggleMobileNav` (main.js:169-184): flip `AppState.navigationActive`,
toggle the `active` class on the menu and the toggle control, then set
`aria-expanded` on the toggle to the new value and `aria-hidden` on the
menu to its negation (both guarded by optional chaining). -/
def toggleMobileNav (s : NavState) : NavState :=
  let active := !s.navigationActive
  let menu := s.navMenu.map (fun m => { m with classes := classListToggle m.classes "active" })
  let toggle := s.navToggle.map (fun t => { t with classes := classListToggle t.classes "active" })
  let toggle := toggle.map (fun t =>
    { t with attrs := setAttribute t.attrs "aria-expanded" (boolToString active) })
  let menu := menu.map (fun m =>
    { m with attrs := setAttribute m.attrs "aria-hidden" (boolToString (!active)) })
  { navigationActive := active, navToggle := toggle, navMenu := menu }

/-- `updateMobileNavigation` (main.js:389-397): when the viewport is not
mobile (width > 768) and the nav is open, clear the boolean and remove the
`active` class from menu and toggle.  No ARIA attribute is touched. -/
def updateMobileNavigation (width : Nat) (s : NavState) : NavState :=
  let isMobile := width ≤ 768
  if !isMobile && s.navigationActive then
    { navigationActive := false
      navMenu := s.navMenu.map (fun m => { m with classes := classListRemove m.classes "active" })
      navToggle := s.navToggle.map (fun t => { t with classes := classListRemove t.classes "active" }) }
  else s

/-- `handleWindowResize` (main.js:293-301): close the mobile nav via
`toggleMobileNav` when the viewport is wider than 768 and the nav is open,
then run `updateMobileNavigation`. -/
def handleWindowResize (width : Nat) (s : NavState) : NavState :=
  let s := if width > 768 && s.navigationActive then toggleMobileNav s else s
  updateMobileNavigation width s

/-- An action link of the emergency modal (`<a href=... class=...>label</a>`). -/
structure Anchor where
  href : String
  cls : String
  label : String
deriving Repr, DecidableEq

/-- One `emergency-item` block of the modal markup: heading (`h3`),
bold info line (`p`/`strong`), and the action anchor. -/
structure EmergencyItem where
  heading : String
  info : String
  action : Anchor
deriving Repr, DecidableEq

/-- The emergency modal, reduced to its observable content: the heading,
the three resource items, and the close-button label. -/
structure EmergencyModal where
  title : String
  items : List EmergencyItem
  closeLabel : String
deriving Repr, DecidableEq

/-- `createEmergencyModal` (main.js:415-454): the fixed `innerHTML`
content of the `emergency-modal` element. -/
def createEmergencyModal : EmergencyModal :=
  { title := "🚨 Emergency Resources"
    items :=
      [ { heading := "Immediate Crisis Support"
          info := "988 Suicide & Crisis Lifeline"
          action := { href := "tel:988", cls := "btn btn-emergency", label := "Call 988" } }
      , { heading := "Emergency Services"
          info := "911 for immediate emergency"
          action := { href := "tel:911", cls := "btn btn-emergency", label := "Call 911" } }
      , { heading := "Crisis Text Line"
          info := "Text HOME to 741741"
          action := { href := "sms:741741", cls := "btn btn-help", label := "Text Support" } } ]
    closeLabel := "Close" }

/-- `showEmergencyResources` (main.js:402-410): build a modal and
`document.body.appendChild` it.  No check for an already-present modal is
made, so the new modal is appended to whatever modals already exist. -/
def showEmergencyResources (body : List EmergencyModal) : List EmergencyModal :=
  body ++ [createEmergencyModal]

/-- Where inside the modal element a click event's `target` lies. -/
inductive ModalClickTarget where
  /-- The `.close-modal` button (or a node inside it). -/
  | closeButton
  /-- The `.emergency-modal` backdrop element itself (`e.target === modal`). -/
  | backdropSelf
  /-- A node inside `.emergency-modal-content` other than the close button. -/
  | contentRegion
deriving Repr, DecidableEq

/-- The `.close-modal` click listener (main.js:443-445): attached to the
close button, so it fires exactly when the event target lies in the close
button, and then removes the modal. -/
def closeModalListenerRemoves (t : ModalClickTarget) : Bool :=
  match t with
  | .closeButton => true
  | _ => false

/-- The backdrop click listener (main.js:447-451): attached to the modal
element, it sees every click inside the modal but removes the modal only
when `e.target === modal`. -/
def backdropListenerRemoves (t : ModalClickTarget) : Bool :=
  match t with
  | .backdropSelf => true
  | _ => false

/-- A click dispatched inside the modal removes it iff either of its two
registered click listeners removes it. -/
def modalClickRemoves (t : ModalClickTarget) : Bool :=
  closeModalListenerRemoves t || backdropListenerRemoves t

/-- Effect of a click inside the modal at position `i` of the document
body's modal stack: `modal.remove()` when a listener fires, else nothing. -/
def clickEmergencyModal (body : List EmergencyModal) (i : Nat)
    (t : ModalClickTarget) : List EmergencyModal :=
  if modalClickRemoves t then body.eraseIdx i else body

/-- The page-wide state visible to the global `keydown` listener:
the navigation state, the stack of appended emergency modals, and
`document.body`'s class list. -/
structure PageState where
  nav : NavState
  modals : List EmergencyModal
  bodyClasses : List String
deriving Repr, DecidableEq

/-- `handleKeyboardNavigation` (main.js:319-329): Escape toggles the
mobile nav only when it is open; Tab adds the `keyboard-nav` class to the
body.  No listener in the file reacts to keys on the modal. -/
def handleKeyboardNavigation (key : String) (s : PageState) : PageState :=
  let s := if key = "Escape" && s.nav.navigationActive then
      { s with nav := toggleMobileNav s.nav }
    else s
  if key = "Tab" then
    { s with bodyClasses := classListAdd s.bodyClasses "keyboard-nav" }
  else s

/-- A navigation link (`.nav-link`): its `href` attribute (possibly
absent, i.e. `getAttribute` returns `null`) and its class list. -/
structure Link where
  href : Option String
  classes : List String
deriving Repr, DecidableEq

/-- `updateActiveNavigation` (main.js:373-384): take the URL fragment
(`location.hash.substring(1)`, defaulting to `"home"` when empty) and, for
every nav link, add the `active` class when its `href` attribute equals
`"#" ++ hash` exactly, otherwise remove it. -/
def updateActiveNavigation (fragment : String) (links : List Link) : List Link :=
  let hash := if fragment = "" then "home" else fragment
  links.map (fun link =>
    if link.href = some ("#" ++ hash) then
      { link with classes := classListAdd link.classes "active" }
    else
      { link with classes := classListRemove link.classes "active" })

/-- State consumed by `handleNavigation`: the nav state, the list of
cached nav links, and `AppState.currentPage`. -/
structure NavPageState where
  nav : NavState
  links : List Link
  currentPage : String
deriving Repr, DecidableEq

/-- `handleNavigation` (main.js:189-212) with the clicked link at index
`i`: read the link's `href` attribute, clear `active` from every link and
set it on the clicked one, close the mobile nav via `toggleMobileNav` when
open, then evaluate `href.startsWith('#')`.  When the `href` attribute is
absent, `getAttribute` returned `null` and `null.startsWith` throws a
`TypeError`, modelled as `Except.error`. -/
def handleNavigation (s : NavPageState) (i : Nat) : Except String NavPageState :=
  let href := (s.links.get? i).bind (fun l => l.href)
  let links := s.links.map (fun l => { l with classes := classListRemove l.classes "active" })
  let links :=
    match links.get? i with
    | some l => links.set i { l with classes := classListAdd l.classes "active" }
    | none => links
  let nav := if s.nav.navigationActive then toggleMobileNav s.nav else s.nav
  match href with
  | none => Except.error "TypeError: null has no method startsWith"
  | some h =>
    if h.startsWith "#" then
      Except.ok { nav := nav, links := links, currentPage := h.drop 1 }
    else
      Except.ok { nav := nav, links := links, currentPage := s.currentPage }

/-- `Utils.debounce` (main.js:548-558), trailing edge: each call at time
`t` clears the pending timeout and schedules `func(...args)` at `t + wait`;
the scheduled call survives iff no further call arrives strictly before it
fires.  Given the calls in temporal order, this returns the list of
`(time, args)` invocations of `func`. -/
def debounceInvocations (wait : Nat) (calls : List (Nat × α)) : List (Nat × α) :=
  match calls with
  | [] => []
  | [(t, a)] => [(t + wait, a)]
  | (t, a) :: (t', a') :: rest =>
    if t' < t + wait then
      debounceInvocations wait ((t', a') :: rest)
    else
      (t + wait, a) :: debounceInvocations wait ((t', a') :: rest)

/-- Whether the first character list starts the second one. -/
def leadsWith : List Char → List Char → Bool
  | [], _ => true
  | _ :: _, [] => false
  | p :: ps, c :: cs => p = c && leadsWith ps cs

/-- The character suffix after the first occurrence of `?body=`, when
the key occurs. -/
def bodyAfterKey : List Char → Option (List Char)
  | [] => none
  | c :: rest =>
    if leadsWith ['?', 'b', 'o', 'd', 'y', '='] (c :: rest) then
      some ((c :: rest).drop 6)
    else bodyAfterKey rest

/-- Modelled from the spec: the message-body component of an `sms:` URI
(the part after `?body=`), as in the spec's phrase "SMS target `741741`
with body `HOME`".  Returns `none` when the URI carries no body. -/
def smsUriBody (href : String) : Option String :=
  match bodyAfterKey href.data with
  | some cs => some ⟨cs⟩
  | none => none

/-- The `href` attributes of the modal's three action anchors, in
document order. -/
def emergencyActionHrefs : List String :=
  createEmergencyModal.items.map (fun it => it.action.href)

/-- A concrete open-nav state on a wide viewport, with the ARIA
attributes that `toggleMobileNav` would have written while opening. -/
def openNavAriaExample : NavState :=
  { navigationActive := true
    navToggle := some { classes := ["active"], attrs := [("aria-expanded", "true")] }
    navMenu := some { classes := ["active"], attrs := [("aria-hidden", "false")] } }

/-- A concrete closed-nav state with ARIA attributes mirroring the
closed state. -/
def closedNavExample : NavState :=
  { navigationActive := false
    navToggle := some { classes := [], attrs := [("aria-expanded", "false")] }
    navMenu := some { classes := [], attrs := [("aria-hidden", "true")] } }

/-- A page in which the mobile nav is closed and one emergency modal is
present in the document. -/
def modalOpenPageExample : PageState :=
  { nav := closedNavExample
    modals := [createEmergencyModal]
    bodyClasses := [] }

/-- A navigation state whose single link carries no `href` attribute. -/
def noHrefLinkExample : NavPageState :=
  { nav := { navigationActive := false, navToggle := none, navMenu := none }
    links := [{ href := none, classes := ["nav-link"] }]
    currentPage := "home" }

/-! ## Helper lemmas about the DOM primitives -/

theorem contains_classListRemove_self (cs : List String) (c : String) :
    classListContains (classListRemove cs c) c = false := by
  simp [classListContains, classListRemove]

theorem contains_classListAdd_self (cs : List String) (c : String) :
    classListContains (classListAdd cs c) c = true := by
  unfold classListContains classListAdd
  split <;> simp_all

theorem contains_classListToggle_toggle (cs : List String) (c : String) :
    classListContains (classListToggle (classListToggle cs c) c) c
      = classListContains cs c := by
  unfold classListToggle
  by_cases hc : c ∈ cs
  · have hc' : cs.contains c = true := by simpa using hc
    rw [if_pos hc']
    have h2 : (classListRemove cs c).contains c = false :=
      contains_classListRemove_self cs c
    rw [if_neg (by simpa using h2)]
    rw [contains_classListAdd_self]
    simp [classListContains, hc]
  · have hc' : ¬ cs.contains c = true := by simpa using hc
    rw [if_neg hc']
    have h2 : (classListAdd cs c).contains c = true :=
      contains_classListAdd_self cs c
    rw [if_pos h2]
    rw [contains_classListRemove_self]
    simp [classListContains, hc]

theorem getAttribute_setAttribute_self (attrs : List (String × String)) (k v : String) :
    getAttribute (setAttribute attrs k v) k = some v := by
  induction attrs with
  | nil => simp [setAttribute, getAttribute]
  | cons p rest ih =>
    by_cases hp : p.1 = k
    · simp [setAttribute, getAttribute, hp]
    · simpa [setAttribute, getAttribute, List.find?, hp] using ih

/-! ## Claim theorems -/

/-- C5: for every prior navigation state and every resize event whose
resulting viewport width is strictly greater than 768 logical pixels,
after `handleWindowResize` completes, `AppState.navigationActive` is
false. -/
theorem resize_above_breakpoint_forces_nav_closed (s : NavState) (width : Nat)
    (h : 768 < width) : (handleWindowResize width s).navigationActive = false := by
  cases hA : s.navigationActive <;>
    simp [handleWindowResize, updateMobileNavigation, toggleMobileNav, hA, h,
      Nat.not_le.mpr h]

/-- Witness for C5 at a concrete open state and width 1024. -/
theorem resize_above_breakpoint_forces_nav_closed_witness :
    768 < 1024 ∧ (handleWindowResize 1024 openNavAriaExample).navigationActive = false :=
  ⟨by decide, resize_above_breakpoint_forces_nav_closed openNavAriaExample 1024 (by decide)⟩

/-- C3 counterexample: on a 1024-wide viewport with the nav open,
`updateMobileNavigation` clears the boolean but leaves `aria-expanded`
at "true" and `aria-hidden` at "false", contrary to the claim that it
sets them to "false" and "true". -/
theorem updateMobileNavigation_leaves_aria_stale :
    (updateMobileNavigation 1024 openNavAriaExample).navigationActive = false ∧
    (updateMobileNavigation 1024 openNavAriaExample).navToggle.map
        (fun t => getAttribute t.attrs "aria-expanded") = some (some "true") ∧
    (updateMobileNavigation 1024 openNavAriaExample).navMenu.map
        (fun m => getAttribute m.attrs "aria-hidden") = some (some "false") := by
  refine ⟨rfl, rfl, rfl⟩

/-- C3 as amended: when the viewport width exceeds 768 and the menu is
open, `updateMobileNavigation` sets the open-state boolean to false and
removes the `active` class from the toggle control and the menu panel,
and it leaves every attribute (in particular `aria-expanded` and
`aria-hidden`) unchanged; it does not re-invoke `toggleMobileNav`. -/
theorem updateMobileNavigation_closes_state_and_classes (s : NavState) (width : Nat)
    (hw : 768 < width) (hA : s.navigationActive = true) :
    (updateMobileNavigation width s).navigationActive = false ∧
    (updateMobileNavigation width s).navToggle
      = s.navToggle.map (fun t => { t with classes := classListRemove t.classes "active" }) ∧
    (updateMobileNavigation width s).navMenu
      = s.navMenu.map (fun m => { m with classes := classListRemove m.classes "active" }) ∧
    (updateMobileNavigation width s).navToggle.map (fun t => t.attrs)
      = s.navToggle.map (fun t => t.attrs) ∧
    (updateMobileNavigation width s).navMenu.map (fun m => m.attrs)
      = s.navMenu.map (fun m => m.attrs) := by
  cases s with
  | mk a t m =>
    simp only at hA
    subst hA
    cases t <;> cases m <;> simp [updateMobileNavigation, Nat.not_le.mpr hw]

/-- Witness for C3's amended theorem at a concrete open state. -/
theorem updateMobileNavigation_closes_state_and_classes_witness :
    (updateMobileNavigation 1024 openNavAriaExample).navigationActive = false :=
  (updateMobileNavigation_closes_state_and_classes openNavAriaExample 1024
    (by decide) rfl).1

/-- C1 counterexample: activating the emergency control twice, the second
time while the modal from the first activation is still in the document,
leaves two modal elements in the document, not exactly one. -/
theorem showEmergencyResources_twice_two_modals :
    (showEmergencyResources (showEmergencyResources [])).length = 2 ∧
    (showEmergencyResources (showEmergencyResources [])).length ≠ 1 := by
  exact ⟨rfl, by decide⟩

/-- C1 as amended: every activation of the emergency control appends
exactly one new modal to the document body, so after n activations with
no intervening dismissal, n modals are present (exactly one only when the
document held none before the single activation). -/
theorem showEmergencyResources_appends_one_modal (body : List EmergencyModal) :
    (showEmergencyResources body).length = body.length + 1 ∧
    (∀ n : Nat, (showEmergencyResources^[n] []).length = n) := by
  constructor
  · simp [showEmergencyResources]
  · intro n
    induction n with
    | zero => rfl
    | succ k ih =>
      rw [Function.iterate_succ_apply']
      simp [showEmergencyResources, ih]

/-- C2 counterexample: the modal's three action hrefs are exactly
`tel:988`, `tel:911`, `sms:741741`, and none of them — in particular the
SMS link — carries a message-body component, so the modal contains no SMS
target whose message body is "HOME". -/
theorem emergency_sms_link_carries_no_body :
    emergencyActionHrefs = ["tel:988", "tel:911", "sms:741741"] ∧
    emergencyActionHrefs.all (fun h => (smsUriBody h).isNone) = true := by
  exact ⟨rfl, by decide⟩

/-- C2 as amended: the modal contains exactly the three crisis action
references `tel:988`, `tel:911` and `sms:741741`; the SMS deep-link
itself carries no body parameter, and the body "HOME" appears instead as
the instruction text "Text HOME to 741741". -/
theorem emergency_modal_crisis_payload :
    createEmergencyModal.items.map (fun it => it.action.href)
      = ["tel:988", "tel:911", "sms:741741"] ∧
    smsUriBody "sms:741741" = none ∧
    (createEmergencyModal.items.map (fun it => it.info)).contains
      "Text HOME to 741741" = true := by
  exact ⟨rfl, by decide, by decide⟩

/-- C4: the code, evaluated at the failing input — a click on a nav link
that has no `href` attribute — throws: `handleNavigation` reads the
attribute (`null`), mutates classes and nav state, then evaluates
`null.startsWith('#')`, a TypeError, contradicting the spec's rule that
a missing attribute is a silent no-op. -/
theorem handleNavigation_missing_href_throws :
    handleNavigation noHrefLinkExample 0
      = Except.error "TypeError: null has no method startsWith" := rfl

/-- C6: starting from a closed mobile-nav state (boolean false, ARIA
attributes mirroring it), calling `toggleMobileNav` twice restores every
observable: the open-state boolean, the presence of the `active` class on
toggle and menu, `aria-expanded` on the toggle and `aria-hidden` on the
menu. -/
theorem toggleMobileNav_twice_restores_closed_state (s : NavState)
    (hA : s.navigationActive = false)
    (hT : ∀ t, s.navToggle = some t → getAttribute t.attrs "aria-expanded" = some "false")
    (hM : ∀ m, s.navMenu = some m → getAttribute m.attrs "aria-hidden" = some "true") :
    (toggleMobileNav (toggleMobileNav s)).navigationActive = s.navigationActive ∧
    (toggleMobileNav (toggleMobileNav s)).navToggle.map
        (fun t => classListContains t.classes "active")
      = s.navToggle.map (fun t => classListContains t.classes "active") ∧
    (toggleMobileNav (toggleMobileNav s)).navMenu.map
        (fun m => classListContains m.classes "active")
      = s.navMenu.map (fun m => classListContains m.classes "active") ∧
    (toggleMobileNav (toggleMobileNav s)).navToggle.map
        (fun t => getAttribute t.attrs "aria-expanded")
      = s.navToggle.map (fun t => getAttribute t.attrs "aria-expanded") ∧
    (toggleMobileNav (toggleMobileNav s)).navMenu.map
        (fun m => getAttribute m.attrs "aria-hidden")
      = s.navMenu.map (fun m => getAttribute m.attrs "aria-hidden") := by
  cases s with
  | mk a t m =>
    simp only at hA
    subst hA
    cases t with
    | none =>
      cases m with
      | none => simp [toggleMobileNav]
      | some me =>
        have hm := hM me rfl
        simp [toggleMobileNav, boolToString, contains_classListToggle_toggle,
          getAttribute_setAttribute_self, hm]
    | some te =>
      have ht := hT te rfl
      cases m with
      | none =>
        simp [toggleMobileNav, boolToString, contains_classListToggle_toggle,
          getAttribute_setAttribute_self, ht]
      | some me =>
        have hm := hM me rfl
        simp [toggleMobileNav, boolToString, contains_classListToggle_toggle,
          getAttribute_setAttribute_self, ht, hm]

/-- Witness for C6 at a concrete closed state with both elements present. -/
theorem toggleMobileNav_twice_restores_closed_state_witness :
    (toggleMobileNav (toggleMobileNav closedNavExample)).navigationActive
        = closedNavExample.navigationActive ∧
    (toggleMobileNav (toggleMobileNav closedNavExample)).navToggle.map
        (fun t => classListContains t.classes "active")
      = closedNavExample.navToggle.map (fun t => classListContains t.classes "active") ∧
    (toggleMobileNav (toggleMobileNav closedNavExample)).navMenu.map
        (fun m => classListContains m.classes "active")
      = closedNavExample.navMenu.map (fun m => classListContains m.classes "active") ∧
    (toggleMobileNav (toggleMobileNav closedNavExample)).navToggle.map
        (fun t => getAttribute t.attrs "aria-expanded")
      = closedNavExample.navToggle.map (fun t => getAttribute t.attrs "aria-expanded") ∧
    (toggleMobileNav (toggleMobileNav closedNavExample)).navMenu.map
        (fun m => getAttribute m.attrs "aria-hidden")
      = closedNavExample.navMenu.map (fun m => getAttribute m.attrs "aria-hidden") :=
  toggleMobileNav_twice_restores_closed_state closedNavExample rfl
    (by intro t ht; injection ht with h; subst h; rfl)
    (by intro m hm; injection hm with h; subst h; rfl)

/-- C7: for the modal built by `createEmergencyModal`, a click on the
close control removes it from the document, a click whose target is the
backdrop element itself removes it, and a click inside the content region
leaves it in place. -/
theorem emergency_modal_click_dismissal :
    clickEmergencyModal [createEmergencyModal] 0 ModalClickTarget.closeButton = [] ∧
    clickEmergencyModal [createEmergencyModal] 0 ModalClickTarget.backdropSelf = [] ∧
    clickEmergencyModal [createEmergencyModal] 0 ModalClickTarget.contentRegion
      = [createEmergencyModal] := by
  exact ⟨rfl, rfl, rfl⟩

/-- C8: with URL fragment "features", `updateActiveNavigation` marks
active exactly those links whose `href` equals the string `#features`
(exact match), marks every other link inactive, leaves every `href`
unchanged, and with the empty fragment behaves exactly as with fragment
"home". -/
theorem updateActiveNavigation_exact_fragment_match (links : List Link) :
    ((updateActiveNavigation "features" links).map
        (fun l => classListContains l.classes "active"))
      = links.map (fun l => decide (l.href = some "#features")) ∧
    (updateActiveNavigation "features" links).map (fun l => l.href)
      = links.map (fun l => l.href) ∧
    updateActiveNavigation "" links = updateActiveNavigation "home" links := by
  refine ⟨?_, ?_, rfl⟩
  · induction links with
    | nil => rfl
    | cons l ls ih =>
      by_cases hl : l.href = some "#features"
      · simpa [updateActiveNavigation, hl, contains_classListAdd_self] using ih
      · simpa [updateActiveNavigation, hl, contains_classListRemove_self] using ih
  · induction links with
    | nil => rfl
    | cons l ls ih =>
      by_cases hl : l.href = some "#features"
      · simpa [updateActiveNavigation, hl] using ih
      · simpa [updateActiveNavigation, hl] using ih

/-- C9: for any wait interval and any temporally ordered, nonempty call
sequence in which each call after the first arrives strictly less than
`wait` after the previous one, the debounced function fires exactly once,
at `wait` after the last call, with the arguments of the last call. -/
theorem debounce_rapid_calls_fire_once {α : Type} (wait : Nat)
    (calls : List (Nat × α)) (hne : calls ≠ [])
    (hrapid : calls.Chain' (fun a b => b.1 < a.1 + wait)) :
    debounceInvocations wait calls
      = [((calls.getLast hne).1 + wait, (calls.getLast hne).2)] := by
  revert hrapid hne
  induction calls with
  | nil => intro hne hch; exact absurd rfl hne
  | cons x xs ih =>
    intro hne hrapid
    cases xs with
    | nil =>
      cases x with
      | mk t a => simp [debounceInvocations]
    | cons y ys =>
      have hxy : y.1 < x.1 + wait := (List.chain'_cons.mp hrapid).1
      have htail := (List.chain'_cons.mp hrapid).2
      have spec := ih (List.cons_ne_nil y ys) htail
      cases x with
      | mk t a =>
        cases y with
        | mk u b =>
          have hstep : debounceInvocations wait ((t, a) :: (u, b) :: ys)
              = debounceInvocations wait ((u, b) :: ys) := by
            simp [debounceInvocations, hxy]
          rw [hstep, spec]
          rfl

/-- Witness for C9: three calls 0, 50, 120 with wait 100 fire once at
220 with the last argument. -/
theorem debounce_rapid_calls_fire_once_witness :
    debounceInvocations 100 [(0, "a"), (50, "b"), (120, "c")] = [(220, "c")] := by
  have h := debounce_rapid_calls_fire_once 100 [(0, "a"), (50, "b"), (120, "c")]
    (by decide) (by simp [List.chain'_cons])
  simpa using h

/-- C10: dispatching an Escape keydown never removes an emergency modal
from the document — the handler's only Escape action is to toggle the
mobile nav, and only when it is open — and when the mobile nav is closed
an Escape keydown changes no state at all. -/
theorem escape_keydown_preserves_modal (s : PageState) :
    (handleKeyboardNavigation "Escape" s).modals = s.modals ∧
    (s.nav.navigationActive = false → handleKeyboardNavigation "Escape" s = s) := by
  constructor
  · cases hA : s.nav.navigationActive <;> simp [handleKeyboardNavigation, hA]
  · intro hA
    simp [handleKeyboardNavigation, hA]

/-- Witness for C10 at a page with one modal present and the nav closed. -/
theorem escape_keydown_preserves_modal_witness :
    (handleKeyboardNavigation "Escape" modalOpenPageExample).modals
        = modalOpenPageExample.modals ∧
    handleKeyboardNavigation "Escape" modalOpenPageExample = modalOpenPageExample :=
  ⟨(escape_keydown_preserves_modal modalOpenPageExample).1,
   (escape_keydown_preserves_modal modalOpenPageExample).2 rfl⟩

end MindWell
